import Mathlib

/-!
Verification development for the Multi-Agent Observability event-correlation
engine (Bun/TypeScript sources under `server/`).

Shallow embedding conventions:
* JSON payload documents (`Record<string, unknown>`) are modelled by the
  inductive `Json`; object fields keep JS insertion order as an association
  list, matching `Object.entries` / JS `Map` iteration order.
* JS strings are modelled as `List Char` where character-level scanning
  matters (redaction) and as Lean `String` for identifier-like fields.
* ISO-8601 `created_at` timestamps are modelled as natural numbers
  (milliseconds since epoch): for the fixed `YYYY-MM-DDTHH:MM:SS` format the
  lexicographic string order used by the SQL queries coincides with the
  numeric order on timestamps.
* The SQLite `events` table is modelled as a `List StoredEvent` in insertion
  order; `SELECT ... WHERE event_id = ?` under the UNIQUE constraint is
  `List.find?`; a `COUNT(*)` query is `List.length` of a `List.filter`.
* JS truthiness on nullable strings (`x || y`) is: `none` and `some ""` are
  falsy; on nullable numbers: `none` and `0` are falsy.
-/

/-- JSON value, the model of a TS `unknown` inside an event payload.
Strings carry their character list so the redaction scanners can walk them. -/
inductive Json where
  | str (s : List Char)
  | num (n : Int)
  | bool (b : Bool)
  | null
  | arr (elems : List Json)
  | obj (fields : List (String × Json))

/-! ## Redaction filter (`server/redaction.ts`)

The seven `secretPatterns` regexes of `DEFAULT_CONFIG` are embedded as
character scanners.  JavaScript `String.replace` with a global regex finds
successive leftmost matches against the *original* string (replacement text
is never rescanned within one `replace` call) and each of these patterns is
such that greedy scanning equals the regex's backtracking semantics; the
one place backtracking matters (the trailing `\b` of pattern 1) is embedded
explicitly by shrinking the greedy run. -/

/-- JS `\w` word character: `[A-Za-z0-9_]` (ASCII, as in JS regex without
the unicode flag). -/
def isWordChar (c : Char) : Bool :=
  c.isAlpha || c.isDigit || c = '_'

/-- Character class of pattern 1, `[A-Za-z0-9_-]`. -/
def isClass1 (c : Char) : Bool :=
  isWordChar c || c = '-'

/-- Character class of the bearer-token tail, `[A-Za-z0-9_\-\.]`. -/
def isBearerChar (c : Char) : Bool :=
  isWordChar c || c = '-' || c = '.'

/-- Character class of the basic-auth tail, `[A-Za-z0-9+\/=]`. -/
def isBasicChar (c : Char) : Bool :=
  c.isAlphanum || c = '+' || c = '/' || c = '='

/-- Character class of pattern 6, `[A-Za-z0-9+\/]`. -/
def isClass6 (c : Char) : Bool :=
  c.isAlphanum || c = '+' || c = '/'

/-- `[0-9A-Z]` as used after the `AKIA` literal. -/
def isUpperOrDigit (c : Char) : Bool :=
  c.isUpper || c.isDigit

/-- `[A-Z_]` of the `.env` key group in pattern 7. -/
def isEnvKeyChar (c : Char) : Bool :=
  ('A' ≤ c && c ≤ 'Z') || c = '_'

/-- JS `\s` restricted to its ASCII members (space, tab, LF, VT, FF, CR);
the payload strings reaching the filter are produced by tooling and use only
these whitespace characters. -/
def isJsSpace (c : Char) : Bool :=
  c = ' ' || c = '\t' || c = '\n' || c = '\x0b' || c = '\x0c' || c = '\r'

/-- Length of the maximal run of characters satisfying `p` at the head. -/
def takeRun (p : Char → Bool) : List Char → Nat
  | [] => 0
  | c :: cs => if p c then takeRun p cs + 1 else 0

/-- Whether a character at index `i` of `s` is a word character
(out-of-range counts as non-word, as at a string edge in JS `\b`). -/
def wordAt (s : List Char) (i : Nat) : Bool :=
  match s.get? i with
  | some c => isWordChar c
  | none => false

/-- The fixed replacement marker `'***REDACTED***'`. -/
def redactedMarker : List Char := "***REDACTED***".toList

/-- Case-insensitive literal match: returns the tail of `s` after the
literal (JS `i` flag only affects ASCII letters here). -/
def stripCI : List Char → List Char → Option (List Char)
  | [], s => some s
  | _ :: _, [] => none
  | l :: ls, c :: cs => if l.toLower = c.toLower then stripCI ls cs else none

/-- Case-sensitive literal match. -/
def stripLit : List Char → List Char → Option (List Char)
  | [], s => some s
  | _ :: _, [] => none
  | l :: ls, c :: cs => if l = c then stripLit ls cs else none

/-- Pattern 1: `\b[A-Za-z0-9_-]{32,}\b` (global).
`prevWord` is whether the character immediately before the scan position is
a word character.  The `{32,}` quantifier is greedy, then the closing `\b`
backtracks it to the longest length `32 ≤ k ≤ run` with a word boundary
after `k` characters; `endBoundary` performs that search. -/
def endBoundary (s : List Char) : Nat → Option Nat
  | 0 => none
  | k + 1 =>
    if k + 1 < 32 then none
    else if wordAt s k ≠ wordAt s (k + 1) then some (k + 1)
    else endBoundary s k

def matchP1 (prevWord : Bool) (s : List Char) : Option (Nat × List Char) :=
  let run := takeRun isClass1 s
  if run < 32 then none
  else if prevWord = wordAt s 0 then none
  else
    match endBoundary s run with
    | some k => some (k, redactedMarker)
    | none => none

/-- Pattern 2: `Authorization:\s*Bearer\s+[A-Za-z0-9_\-\.]+` (global,
case-insensitive). -/
def matchP2 (s : List Char) : Option (Nat × List Char) :=
  match stripCI "authorization:".toList s with
  | none => none
  | some r1 =>
    let sp1 := takeRun isJsSpace r1
    match stripCI "bearer".toList (r1.drop sp1) with
    | none => none
    | some r2 =>
      let sp2 := takeRun isJsSpace r2
      if sp2 = 0 then none
      else
        let tok := takeRun isBearerChar (r2.drop sp2)
        if tok = 0 then none
        else some (14 + sp1 + 6 + sp2 + tok, redactedMarker)

/-- Pattern 3: `Authorization:\s*Basic\s+[A-Za-z0-9+\/=]+` (global,
case-insensitive). -/
def matchP3 (s : List Char) : Option (Nat × List Char) :=
  match stripCI "authorization:".toList s with
  | none => none
  | some r1 =>
    let sp1 := takeRun isJsSpace r1
    match stripCI "basic".toList (r1.drop sp1) with
    | none => none
    | some r2 =>
      let sp2 := takeRun isJsSpace r2
      if sp2 = 0 then none
      else
        let tok := takeRun isBasicChar (r2.drop sp2)
        if tok = 0 then none
        else some (14 + sp1 + 5 + sp2 + tok, redactedMarker)

/-- Pattern 4: `AKIA[0-9A-Z]{16}` (global). -/
def matchP4 (s : List Char) : Option (Nat × List Char) :=
  match stripLit "AKIA".toList s with
  | none => none
  | some r =>
    if 16 ≤ takeRun isUpperOrDigit r then some (20, redactedMarker) else none

/-- Pattern 5: `gh[pousr]_[A-Za-z0-9_]{36,}` (global). -/
def matchP5 (s : List Char) : Option (Nat × List Char) :=
  match s with
  | 'g' :: 'h' :: k :: '_' :: rest =>
    if k = 'p' || k = 'o' || k = 'u' || k = 's' || k = 'r' then
      let run := takeRun isWordChar rest
      if run < 36 then none else some (4 + run, redactedMarker)
    else none
  | _ => none

/-- Pattern 6: `[A-Za-z0-9+\/]{40,}={0,2}` (global): a maximal class run of
at least 40 characters, then up to two `=`. -/
def matchP6 (s : List Char) : Option (Nat × List Char) :=
  let run := takeRun isClass6 s
  if run < 40 then none
  else some (run + min (takeRun (· = '=') (s.drop run)) 2, redactedMarker)

/-- Pattern 7: `([A-Z_]+)=([^\s]+)` (global), replaced by
`'$1=***REDACTED***'`: the key group is preserved, the value replaced. -/
def matchP7 (s : List Char) : Option (Nat × List Char) :=
  let key := takeRun isEnvKeyChar s
  if key = 0 then none
  else
    match s.get? key with
    | some '=' =>
      let val := takeRun (fun c => !isJsSpace c) (s.drop (key + 1))
      if val = 0 then none
      else some (key + 1 + val, s.take key ++ '=' :: redactedMarker)
    | _ => none

/-- A pattern as consumed by the global-replace engine: given whether the
previous original character is a word character (for `\b`) and the rest of
the original string, yield the match length and replacement text. -/
def PatternFn : Type := Bool → List Char → Option (Nat × List Char)

/-- Global `String.replace`: scan the original string left to right; on a
match emit the replacement and resume after the matched text, otherwise
copy one character.  Every scan step consumes at least one character (the
embedded patterns all return match length ≥ 1; a zero-length result is
handled as JS handles an empty match: emit and advance one character), so
recursion on a fuel initialized to the string length is exact and keeps the
definition structurally recursive (kernel-reducible). -/
def replaceAux (m : PatternFn) : Nat → Bool → List Char → List Char
  | 0, _, _ => []
  | _, _, [] => []
  | fuel + 1, prevWord, c :: cs =>
    match m prevWord (c :: cs) with
    | some (0, rep) => rep ++ c :: replaceAux m fuel (isWordChar c) cs
    | some (n + 1, rep) =>
      rep ++ replaceAux m fuel (isWordChar (((c :: cs).get? n).getD c)) (cs.drop n)
    | none => c :: replaceAux m fuel (isWordChar c) cs

def replaceP (m : PatternFn) (s : List Char) : List Char :=
  replaceAux m s.length false s

/-- `redactSecrets` of `redaction.ts`: fold the seven `DEFAULT_CONFIG`
patterns, in array order, over the string.  Only pattern 1 consults the
word-boundary context. -/
def redactSecrets (s : List Char) : List Char :=
  let s1 := replaceP matchP1 s
  let s2 := replaceP (fun _ => matchP2) s1
  let s3 := replaceP (fun _ => matchP3) s2
  let s4 := replaceP (fun _ => matchP4) s3
  let s5 := replaceP (fun _ => matchP5) s4
  let s6 := replaceP (fun _ => matchP6) s5
  replaceP (fun _ => matchP7) s6

/-- UTF-8 byte length, the model of `TextEncoder.encode(text).length`. -/
def utf8Len (s : List Char) : Nat :=
  (s.map Char.utf8Size).sum

/-- Decoded prefix of the first `maxBytes` UTF-8 bytes
(`TextDecoder.decode(bytes.slice(0, maxBytes))`): characters are kept while
they fit; a character cut at the boundary decodes to one U+FFFD
replacement character, as the non-fatal `TextDecoder` produces. -/
def takeBytes : Nat → List Char → List Char
  | _, [] => []
  | maxBytes, c :: cs =>
    if c.utf8Size ≤ maxBytes then c :: takeBytes (maxBytes - c.utf8Size) cs
    else if maxBytes = 0 then [] else ['�']

/-- The truncation marker appended by `truncateOutput`:
`'\n... [truncated ' + dropped + ' bytes]'`. -/
def truncationMarker (dropped : Nat) : List Char :=
  "\n... [truncated ".toList ++ (toString dropped).toList ++ " bytes]".toList

/-- `truncateOutput` of `redaction.ts`. -/
def truncateOutput (s : List Char) (maxBytes : Nat) : List Char :=
  if utf8Len s ≤ maxBytes then s
  else takeBytes maxBytes s ++ truncationMarker (utf8Len s - maxBytes)

/-- JS `String.includes`: `sub` occurs as a contiguous substring. -/
def containsSub (sub : List Char) : List Char → Bool
  | [] => List.isPrefixOf sub []
  | s@(_ :: rest) => List.isPrefixOf sub s || containsSub sub rest

/-- The two byte budgets of `RedactionConfig`; the secret-pattern list is
fixed to the `DEFAULT_CONFIG` list embedded in `redactSecrets`. -/
structure RedactionConfig where
  maxStdoutBytes : Nat
  maxStderrBytes : Nat

def DEFAULT_CONFIG : RedactionConfig :=
  { maxStdoutBytes := 4096, maxStderrBytes := 2048 }

/-- The string branch of `redactPayloadRecursive`: a string whose key path
contains `stdout` (resp. `stderr`) is secret-redacted and then truncated to
the stdout (resp. stderr) budget — in the source the truncation wraps the
`redactSecrets` call, i.e. secret scanning runs first; any other string is
only secret-redacted. -/
def redactString (cfg : RedactionConfig) (path s : List Char) : List Char :=
  if containsSub "stdout".toList path then
    truncateOutput (redactSecrets s) cfg.maxStdoutBytes
  else if containsSub "stderr".toList path then
    truncateOutput (redactSecrets s) cfg.maxStderrBytes
  else redactSecrets s

mutual
/-- `redactPayloadRecursive` of `redaction.ts`: strings are transformed by
`redactString` at their key path; arrays and objects recurse with the path
extended by `[i]` / `.key`; other primitives pass through. -/
def redactPayloadRecursive (cfg : RedactionConfig) : Json → List Char → Json
  | Json.str s, path => Json.str (redactString cfg path s)
  | Json.arr xs, path => Json.arr (redactArr cfg xs path 0)
  | Json.obj fs, path => Json.obj (redactObj cfg fs path)
  | Json.num n, _ => Json.num n
  | Json.bool b, _ => Json.bool b
  | Json.null, _ => Json.null

/-- Array branch: item `i` recurses at path `path[i]`. -/
def redactArr (cfg : RedactionConfig) :
    List Json → List Char → Nat → List Json
  | [], _, _ => []
  | x :: xs, path, i =>
    redactPayloadRecursive cfg x
        (path ++ '[' :: (toString i).toList ++ [']']) ::
      redactArr cfg xs path (i + 1)

/-- Object branch: field `key` recurses at path `path.key`. -/
def redactObj (cfg : RedactionConfig) :
    List (String × Json) → List Char → List (String × Json)
  | [], _ => []
  | (k, v) :: fs, path =>
    (k, redactPayloadRecursive cfg v (path ++ '.' :: k.toList)) ::
      redactObj cfg fs path
end

/-- `redactPayload` of `redaction.ts`: recurse from the whole payload
object at path `'root'` with the default configuration. -/
def redactPayload (payload : List (String × Json)) : List (String × Json) :=
  match redactPayloadRecursive DEFAULT_CONFIG (Json.obj payload) "root".toList with
  | Json.obj fs => fs
  | _ => []

/-! ## Event model (`server/types.ts`, `server/db.ts`) -/

/-- `StoredEvent` of `types.ts`: a fully materialized row of the `events`
table.  `created_at` is the ISO-8601 timestamp modelled as milliseconds;
`risk_level` / `agent_state` keep their TEXT representation. -/
structure StoredEvent where
  id : Nat
  event_id : String
  source_app : String
  session_id : String
  event_type : String
  tool_name : Option String
  summary : String
  payload : List (String × Json)
  created_at : Nat
  run_id : Option String
  agent_id : Option String
  parent_event_id : Option String
  task_id : Option String
  duration_ms : Option Int
  exit_code : Option Int
  risk_level : Option String
  agent_state : Option String
  error_type : Option String

/-- `IncomingEvent` of `types.ts`: the candidate event offered to
`insertEvent`; optional fields are `Option`. -/
structure IncomingEvent where
  event_id : Option String := none
  source_app : String
  session_id : String
  event_type : String
  tool_name : Option String := none
  summary : Option String := none
  payload : Option (List (String × Json)) := none
  timestamp : Option Nat := none
  run_id : Option String := none
  agent_id : Option String := none
  parent_event_id : Option String := none
  task_id : Option String := none
  duration_ms : Option Int := none
  exit_code : Option Int := none
  risk_level : Option String := none
  agent_state : Option String := none
  error_type : Option String := none

/-- JS `x || null` on a nullable string: `null`, `undefined` and `''` give
`null`. -/
def orNull (o : Option String) : Option String :=
  match o with
  | some s => if s = "" then none else some s
  | none => none

/-- JS `x || d` on a nullable string: falsy (`null`/`''`) gives the
default. -/
def strOr (o : Option String) (d : String) : String :=
  match o with
  | some s => if s = "" then d else s
  | none => d

/-- JS truthiness of a nullable string. -/
def strTruthy (o : Option String) : Bool :=
  match o with
  | some s => s ≠ ""
  | none => false

/-- JS truthiness of a JSON value (`false`, `0`, `''`, `null` are falsy). -/
def jsTruthy : Json → Bool
  | Json.str s => s ≠ []
  | Json.num n => n ≠ 0
  | Json.bool b => b
  | Json.null => false
  | Json.arr _ => true
  | Json.obj _ => true

/-- Truthy string-valued property access `obj.key` used by
`generateSummary` (`input.command`, `input.file_path`, `input.pattern`,
`input.description`): the field must exist on an object value and be a
non-empty string. -/
def strProp (j : Json) (key : String) : Option String :=
  match j with
  | Json.obj fs =>
    match List.lookup key fs with
    | some (Json.str s) => if s = [] then none else some (String.mk s)
    | _ => none
  | _ => none

/-- `generateSummary`'s fallback path (everything after the early
`if (event.summary) return event.summary`). -/
def autoSummary (event : IncomingEvent) : String :=
  let base := event.event_type ++
    (match event.tool_name with
     | some t => if t = "" then "" else ": " ++ t
     | none => "")
  match event.tool_name, event.payload with
  | some tool, some payload =>
    if tool = "" then base
    else
      match List.lookup "tool_input" payload with
      | some input =>
        if jsTruthy input then
          if tool = "Bash" then
            match strProp input "command" with
            | some cmd => "Bash: " ++ cmd.take 80
            | none => base
          else if tool = "Write" ∨ tool = "Read" ∨ tool = "Edit" then
            match strProp input "file_path" with
            | some fp => tool ++ " " ++ fp
            | none => base
          else if tool = "Glob" ∨ tool = "Grep" then
            match strProp input "pattern" with
            | some pat => tool ++ ": " ++ pat
            | none => base
          else if tool = "TodoWrite" then "TodoWrite"
          else if tool = "Task" then
            match strProp input "description" with
            | some d => "Task: " ++ d
            | none => base
          else base
        else base
      | none => base
  | _, _ => base

/-- `generateSummary` of `db.ts`: a truthy caller-supplied summary is
returned unchanged; otherwise a summary is derived from the tool name and
the (unredacted) payload shape. -/
def generateSummary (event : IncomingEvent) : String :=
  match event.summary with
  | some s => if s = "" then autoSummary event else s
  | none => autoSummary event

/-- The insert failure: the SQLite UNIQUE constraint on `event_id`
(`server.ts` surfaces it to the HTTP caller as a 409 conflict). -/
inductive InsertError where
  | duplicateEventId

/-- The `event_id || crypto.randomUUID()` resolution of `insertEvent`;
`genId` stands for the freshly generated UUID. -/
def resolvedEventId (genId : String) (e : IncomingEvent) : String :=
  match e.event_id with
  | some i => if i = "" then genId else i
  | none => genId

/-- `insertEvent` of `db.ts`: resolve the id, compute the summary, redact
the payload, and append one row.  The SQLite UNIQUE constraint on
`event_id` makes the single INSERT fail atomically on a duplicate id, so
the model rejects the row before appending; `genId` models
`crypto.randomUUID()` and `now` models `new Date()`.  The returned record
mirrors the object literal built by the source (`?? null` coalescing kept
as the `Option` identity). -/
def insertEvent (genId : String) (now : Nat) (db : List StoredEvent)
    (e : IncomingEvent) : Except InsertError (List StoredEvent × StoredEvent) :=
  let eventId := resolvedEventId genId e
  let summary := generateSummary e
  let createdAt := e.timestamp.getD now
  let safePayload := redactPayload (e.payload.getD [])
  if db.any (fun x => x.event_id == eventId) then
    Except.error InsertError.duplicateEventId
  else
    let stored : StoredEvent :=
      { id := db.length + 1
        event_id := eventId
        source_app := e.source_app
        session_id := e.session_id
        event_type := e.event_type
        tool_name := e.tool_name
        summary := summary
        payload := safePayload
        created_at := createdAt
        run_id := e.run_id
        agent_id := e.agent_id
        parent_event_id := e.parent_event_id
        task_id := e.task_id
        duration_ms := e.duration_ms
        exit_code := e.exit_code
        risk_level := e.risk_level
        agent_state := e.agent_state
        error_type := e.error_type }
    Except.ok (db ++ [stored], stored)

/-- The state of the store after an attempted insert: unchanged when the
insert failed (the single SQL INSERT is all-or-nothing). -/
def insertEventStore (genId : String) (now : Nat) (db : List StoredEvent)
    (e : IncomingEvent) : List StoredEvent :=
  match insertEvent genId now db e with
  | Except.ok (db2, _) => db2
  | Except.error _ => db

/-- `SELECT * FROM events WHERE event_id = ?` under the UNIQUE
constraint. -/
def findEvent (db : List StoredEvent) (id : String) : Option StoredEvent :=
  db.find? (fun e => e.event_id == id)

def MAX_ANCESTOR_DEPTH : Nat := 25

/-- The `while` loop of `getAncestors`: `fuel` is the remaining depth
budget (`MAX_ANCESTOR_DEPTH - depth`); the loop runs while the current id
is truthy (non-null, non-empty), unvisited, and the budget is positive;
each visited event is prepended, so the result is in root-first order. -/
def ancestorWalk (db : List StoredEvent) :
    Nat → List String → Option String → List StoredEvent
  | 0, _, _ => []
  | _, _, none => []
  | fuel + 1, visited, some cid =>
    if cid = "" then []
    else if visited.contains cid then []
    else
      match findEvent db cid with
      | none => []
      | some e => ancestorWalk db fuel (cid :: visited) e.parent_event_id ++ [e]

/-- `getAncestors` of `db.ts`: look up the focal event, then walk the
`parent_event_id` chain with an (initially empty) visited set and a 25-hop
budget. -/
def getAncestors (db : List StoredEvent) (eventId : String) : List StoredEvent :=
  match findEvent db eventId with
  | none => []
  | some focal => ancestorWalk db MAX_ANCESTOR_DEPTH [] focal.parent_event_id

/-! ## Auto-event generation engine (`server/auto-events.ts`) -/

/-- `SessionState` of `auto-events.ts` (the in-memory `activeSessions`
map entry). -/
structure SessionState where
  sessionId : String
  agentId : String
  firstEventAt : Nat
  lastEventAt : Nat
  eventCount : Nat

/-- The `activeSessions` JS `Map`, modelled as an association list in
insertion order. -/
abbrev SessionMap : Type := List (String × SessionState)

/-- JSON escape of one character as produced by `JSON.stringify`. -/
def escapeChar (c : Char) : List Char :=
  if c = '"' then ['\\', '"']
  else if c = '\\' then ['\\', '\\']
  else if c = '\n' then ['\\', 'n']
  else if c = '\r' then ['\\', 'r']
  else if c = '\t' then ['\\', 't']
  else if c = '\x08' then ['\\', 'b']
  else if c = '\x0c' then ['\\', 'f']
  else if c.toNat < 32 then
    '\\' :: 'u' :: '0' :: '0' ::
      ((if c.toNat < 16 then ['0'] else []) ++ Nat.toDigits 16 c.toNat)
  else [c]

def escapeChars (s : List Char) : List Char :=
  (s.map escapeChar).flatten

mutual
/-- `JSON.stringify` on the payload model (used by the truncation-marker
rule); integers print as JS prints integral numbers. -/
def jsonStringify : Json → List Char
  | Json.str s => '"' :: escapeChars s ++ ['"']
  | Json.num n => (toString n).toList
  | Json.bool b => (if b then "true" else "false").toList
  | Json.null => "null".toList
  | Json.arr xs => '[' :: stringifyArr xs ++ [']']
  | Json.obj fs => Char.ofNat 123 :: stringifyObj fs ++ [Char.ofNat 125]

/-- Comma-separated array elements. -/
def stringifyArr : List Json → List Char
  | [] => []
  | [x] => jsonStringify x
  | x :: xs => jsonStringify x ++ ',' :: stringifyArr xs

/-- Comma-separated `"key":value` object fields. -/
def stringifyObj : List (String × Json) → List Char
  | [] => []
  | [(k, v)] => '"' :: escapeChars k.toList ++ '"' :: ':' :: jsonStringify v
  | (k, v) :: fs =>
    '"' :: escapeChars k.toList ++ '"' :: ':' :: jsonStringify v ++
      ',' :: stringifyObj fs
end

/-- `detectSessionBoundaries`: on the first event of an unseen
`session_id:agentKey` pair, record the session and emit `session.started`;
otherwise update the entry's last-seen timestamp and count and emit
nothing.  Returns the updated map with the emitted events. -/
def detectSessionBoundaries (sessions : SessionMap) (stored : StoredEvent) :
    SessionMap × List IncomingEvent :=
  let agentKey := strOr stored.agent_id "default"
  let key := stored.session_id ++ ":" ++ agentKey
  match List.lookup key sessions with
  | none =>
    (sessions ++ [(key,
      { sessionId := stored.session_id
        agentId := agentKey
        firstEventAt := stored.created_at
        lastEventAt := stored.created_at
        eventCount := 1 })],
     [{ source_app := "auto-events"
        session_id := stored.session_id
        event_type := "session.started"
        summary := some ("Session started: " ++ stored.session_id)
        agent_id := orNull stored.agent_id
        run_id := orNull stored.run_id
        payload := some [("detected_from_event_id", Json.str stored.event_id.toList)] }])
  | some _ =>
    (sessions.map (fun kv =>
      if kv.1 = key then
        (kv.1, { kv.2 with lastEventAt := stored.created_at
                           eventCount := kv.2.eventCount + 1 })
      else kv), [])

/-- The repeated-failure `COUNT(*)` query of `detectErrorPatterns`: events
with the same tool name, a non-null non-zero exit code, the same agent
bucket (`agent_id = ?` or `agent_id IS NULL` when the probe agent is the
empty string), and `created_at` within the last five minutes.  ISO string
comparison `created_at >= fiveMinAgo` is numeric comparison in the
timestamp model. -/
def repeatedFailureCount (now : Nat) (db : List StoredEvent)
    (toolName agentId : String) : Nat :=
  (db.filter (fun e => decide (
    e.tool_name = some toolName ∧
    e.exit_code ≠ some 0 ∧ e.exit_code ≠ none ∧
    (e.agent_id = some agentId ∨ (e.agent_id = none ∧ agentId = "")) ∧
    now - 5 * 60 * 1000 ≤ e.created_at))).length

/-- Rule 1 of `detectErrorPatterns`: a `PostToolUse` event with a truthy
`duration_ms` exceeding 30000 emits `tool.timeout` referencing the
original as parent. -/
def timeoutRule (stored : StoredEvent) : List IncomingEvent :=
  match stored.duration_ms with
  | some d =>
    if stored.event_type = "PostToolUse" ∧ d ≠ 0 ∧ 30000 < d then
      [{ source_app := "auto-events"
         session_id := stored.session_id
         event_type := "tool.timeout"
         tool_name := stored.tool_name
         summary := some ("Tool timeout: " ++ strOr stored.tool_name "unknown" ++
           " took " ++ toString d ++ "ms")
         parent_event_id := some stored.event_id
         agent_id := orNull stored.agent_id
         run_id := orNull stored.run_id
         duration_ms := some d
         risk_level := some "high"
         payload := some [("threshold_ms", Json.num 30000), ("actual_ms", Json.num d)] }]
    else []
  | none => []

/-- Rule 2 of `detectErrorPatterns`: a truthy tool name and a non-null
non-zero exit code trigger the five-minute repeated-failure count; at
count ≥ 3 an `error.unhandled` is emitted. -/
def repeatedFailureRule (now : Nat) (db : List StoredEvent)
    (stored : StoredEvent) : List IncomingEvent :=
  match stored.exit_code, stored.tool_name with
  | some c, some t =>
    if c ≠ 0 ∧ t ≠ "" then
      let cnt := repeatedFailureCount now db t (stored.agent_id.getD "")
      if 3 ≤ cnt then
        [{ source_app := "auto-events"
           session_id := stored.session_id
           event_type := "error.unhandled"
           tool_name := some t
           summary := some ("Repeated failures: " ++ t ++ " (" ++ toString cnt ++
             " in 5min)")
           agent_id := orNull stored.agent_id
           run_id := orNull stored.run_id
           risk_level := some "high"
           error_type := some "repeated_failure"
           payload := some [("error_count", Json.num cnt),
             ("window_minutes", Json.num 5), ("tool", Json.str t.toList)] }]
      else []
    else []
  | _, _ => []

/-- `detectErrorPatterns`: rule 1 then rule 2, in source order.  The model
has no database failures, so the `try/catch` around rule 2 degrades to the
plain query. -/
def detectErrorPatterns (now : Nat) (db : List StoredEvent)
    (stored : StoredEvent) : List IncomingEvent :=
  timeoutRule stored ++ repeatedFailureRule now db stored

/-- `detectToolLifecycleEvents`: a serialized payload containing the
truncation marker text emits `tool.output_truncated` (a stored payload is
always an object, hence truthy). -/
def detectToolLifecycleEvents (stored : StoredEvent) : List IncomingEvent :=
  let payloadStr := jsonStringify (Json.obj stored.payload)
  if containsSub "[truncated".toList payloadStr then
    [{ source_app := "auto-events"
       session_id := stored.session_id
       event_type := "tool.output_truncated"
       tool_name := stored.tool_name
       summary := some ("Output truncated: " ++ strOr stored.tool_name "unknown")
       parent_event_id := some stored.event_id
       agent_id := orNull stored.agent_id
       run_id := orNull stored.run_id
       payload := some [("original_event_id", Json.str stored.event_id.toList)] }]
  else []

/-- `processAutoEvents` of `auto-events.ts`: cascade prevention drops
events whose `source_app` is the `'auto-events'` sentinel; otherwise the
three detectors run in order.  The session map is threaded explicitly in
place of the module-level mutable `activeSessions`. -/
def processAutoEvents (sessions : SessionMap) (now : Nat)
    (db : List StoredEvent) (stored : StoredEvent) :
    SessionMap × List IncomingEvent :=
  if stored.source_app = "auto-events" then (sessions, [])
  else
    let sb := detectSessionBoundaries sessions stored
    (sb.1, sb.2 ++ detectErrorPatterns now db stored ++
      detectToolLifecycleEvents stored)

/-! ## Run summarizer (`server/summary.ts`) -/

/-- Per-risk-level counters of `RunSummaryStats.risk_events`. -/
structure RiskCounts where
  low : Nat
  med : Nat
  high : Nat

/-- `RunSummaryStats` of `summary.ts`.  The three JS `Set`s are carried as
dedup-on-insert lists (JS `Set` + `Array.from` preserves first-insertion
order); the two `Record<string, number>` frequency tables are association
lists in first-insertion order. -/
structure RunSummaryStats where
  tools_used : List String
  total_events : Nat
  tool_errors : Nat
  total_duration_ms : Int
  files_modified : List String
  task_statuses : List (String × String)
  risk_events : RiskCounts
  agents_involved : List String
  tasks_completed : Nat
  tasks_failed : Nat
  handoffs : Nat
  errors_by_type : List (String × Nat)
  event_type_counts : List (String × Nat)

/-- `Set.add`: append if absent (JS `Set` keeps first-insertion order). -/
def insertDedup (l : List String) (s : String) : List String :=
  if l.contains s then l else l ++ [s]

/-- `rec[k] = (rec[k] || 0) + 1` on a JS object: bump an existing key in
place, append a new key. -/
def bump : List (String × Nat) → String → List (String × Nat)
  | [], k => [(k, 1)]
  | (k2, v) :: rest, k =>
    if k2 = k then (k2, v + 1) :: rest else (k2, v) :: bump rest k

/-- `rec[k] = v` on a JS object: overwrite an existing key in place,
append a new key. -/
def setKey : List (String × String) → String → String → List (String × String)
  | [], k, v => [(k, v)]
  | (k2, v2) :: rest, k, v =>
    if k2 = k then (k2, v) :: rest else (k2, v2) :: setKey rest k v

/-- `stats.risk_events[event.risk_level]++`; the schema CHECK constraint
restricts stored risk levels to `low`/`med`/`high` or NULL. -/
def bumpRisk (r : RiskCounts) (level : String) : RiskCounts :=
  if level = "low" then { r with low := r.low + 1 }
  else if level = "med" then { r with med := r.med + 1 }
  else if level = "high" then { r with high := r.high + 1 }
  else r

/-- The two sequential `files_modified` insertions of the loop body
(`payload.file_path`, then `payload.tool_input.file_path`, each a truthy
string). -/
def filesStep (files : List String) (payload : List (String × Json)) :
    List String :=
  let f1 := match List.lookup "file_path" payload with
    | some (Json.str fp) => if fp ≠ [] then insertDedup files (String.mk fp) else files
    | _ => files
  match List.lookup "tool_input" payload with
  | some (Json.obj ti) =>
    match List.lookup "file_path" ti with
    | some (Json.str fp) => if fp ≠ [] then insertDedup f1 (String.mk fp) else f1
    | _ => f1
  | _ => f1

/-- One iteration of the `for (const event of events)` analysis loop of
`generateRunSummary`.  The loop body's updates touch pairwise distinct
fields, each depending only on the event and that field's prior value, so
the sequential mutations are rendered as one simultaneous record. -/
def statsStep (s : RunSummaryStats) (e : StoredEvent) : RunSummaryStats :=
  { tools_used := if strTruthy e.tool_name then
      insertDedup s.tools_used (e.tool_name.getD "") else s.tools_used
    total_events := s.total_events
    tool_errors := if e.exit_code ≠ none ∧ e.exit_code ≠ some 0 then
      s.tool_errors + 1 else s.tool_errors
    total_duration_ms := match e.duration_ms with
      | some d => s.total_duration_ms + d
      | none => s.total_duration_ms
    files_modified := filesStep s.files_modified e.payload
    task_statuses := if strTruthy e.task_id then
      setKey s.task_statuses (e.task_id.getD "")
        (if containsSub "Post".toList e.event_type.toList then "completed"
         else "started")
      else s.task_statuses
    risk_events := if strTruthy e.risk_level then
      bumpRisk s.risk_events (e.risk_level.getD "") else s.risk_events
    agents_involved := if strTruthy e.agent_id then
      insertDedup s.agents_involved (e.agent_id.getD "") else s.agents_involved
    tasks_completed := if e.event_type = "task.completed" then
      s.tasks_completed + 1 else s.tasks_completed
    tasks_failed := if e.event_type = "task.failed" then
      s.tasks_failed + 1 else s.tasks_failed
    handoffs := if e.event_type = "handoff.completed" then
      s.handoffs + 1 else s.handoffs
    errors_by_type := if strTruthy e.error_type then
      bump s.errors_by_type (e.error_type.getD "") else s.errors_by_type
    event_type_counts := bump s.event_type_counts e.event_type }

/-- The initial `stats` object (with `total_events` preset to the event
count, as in the source). -/
def initStats (totalEvents : Nat) : RunSummaryStats :=
  { tools_used := []
    total_events := totalEvents
    tool_errors := 0
    total_duration_ms := 0
    files_modified := []
    task_statuses := []
    risk_events := { low := 0, med := 0, high := 0 }
    agents_involved := []
    tasks_completed := 0
    tasks_failed := 0
    handoffs := 0
    errors_by_type := []
    event_type_counts := [] }

/-- `SELECT * FROM events WHERE run_id = ? AND agent_id = ? ORDER BY
created_at ASC`. -/
def runEvents (db : List StoredEvent) (runId agentId : String) : List StoredEvent :=
  (db.filter (fun e => decide (e.run_id = some runId ∧ e.agent_id = some agentId))).mergeSort
    (fun e1 e2 => decide (e1.created_at ≤ e2.created_at))

/-- The statistics accumulated by `generateRunSummary` for one
run/agent pair. -/
def runStats (db : List StoredEvent) (runId agentId : String) : RunSummaryStats :=
  let events := runEvents db runId agentId
  events.foldl statsStep (initStats events.length)

/-- Sum of the values of a JS numeric record. -/
def sumVals (m : List (String × Nat)) : Nat :=
  (m.map (fun kv => kv.2)).sum

/-- The statistics fields spread into the `run.summary` payload
(`{...stats}`), with numbers as JSON numbers. -/
def statsPayload (st : RunSummaryStats) : List (String × Json) :=
  [("tools_used", Json.arr (st.tools_used.map (fun t => Json.str t.toList))),
   ("total_events", Json.num st.total_events),
   ("tool_errors", Json.num st.tool_errors),
   ("total_duration_ms", Json.num st.total_duration_ms),
   ("files_modified", Json.arr (st.files_modified.map (fun t => Json.str t.toList))),
   ("task_statuses", Json.obj (st.task_statuses.map (fun kv => (kv.1, Json.str kv.2.toList)))),
   ("risk_events", Json.obj [("low", Json.num st.risk_events.low),
     ("med", Json.num st.risk_events.med), ("high", Json.num st.risk_events.high)]),
   ("agents_involved", Json.arr (st.agents_involved.map (fun t => Json.str t.toList))),
   ("tasks_completed", Json.num st.tasks_completed),
   ("tasks_failed", Json.num st.tasks_failed),
   ("handoffs", Json.num st.handoffs),
   ("errors_by_type", Json.obj (st.errors_by_type.map (fun kv => (kv.1, Json.num kv.2)))),
   ("event_type_counts", Json.obj (st.event_type_counts.map (fun kv => (kv.1, Json.num kv.2))))]

/-- `generateRunSummary` of `summary.ts`: scan the pair's events in
ascending time order, accumulate `RunSummaryStats`, and produce one
`run.summary` event whose payload is the statistics plus the first/last
event timestamps (`undefined` first/last — the empty scan — is dropped by
`JSON.stringify`, modelled by omitting the key). -/
def generateRunSummary (now : Nat) (db : List StoredEvent)
    (runId agentId : String) : IncomingEvent :=
  let events := runEvents db runId agentId
  let stats := events.foldl statsStep (initStats events.length)
  let agents := stats.agents_involved.length
  { source_app := agentId
    session_id := match events.head? with
      | some e => if e.session_id = "" then "unknown" else e.session_id
      | none => "unknown"
    event_type := "run.summary"
    summary := some ("Run completed: " ++ toString stats.total_events ++ " events, " ++
      toString stats.tools_used.length ++ " tools, " ++ toString agents ++
      " agent" ++ (if agents ≠ 1 then "s" else "") ++ ", " ++
      toString stats.tool_errors ++ " errors, " ++ toString stats.handoffs ++ " handoffs")
    run_id := some runId
    agent_id := some agentId
    payload := some (statsPayload stats ++
      (match events.head? with
       | some e => [("start_time", Json.num e.created_at)]
       | none => []) ++
      (match events.getLast? with
       | some e => [("end_time", Json.num e.created_at)]
       | none => []))
    timestamp := some now }

/-! ## Theorems -/

theorem sessionBoundaries_event_type (sessions : SessionMap) (stored : StoredEvent) :
    ∀ e ∈ (detectSessionBoundaries sessions stored).2, e.event_type = "session.started" := by
  intro e he
  cases h : List.lookup (stored.session_id ++ ":" ++ strOr stored.agent_id "default") sessions with
  | none =>
    simp [detectSessionBoundaries, h] at he
    subst he
    rfl
  | some st => simp [detectSessionBoundaries, h] at he

theorem sessionBoundaries_source_app (sessions : SessionMap) (stored : StoredEvent) :
    ∀ e ∈ (detectSessionBoundaries sessions stored).2, e.source_app = "auto-events" := by
  intro e he
  cases h : List.lookup (stored.session_id ++ ":" ++ strOr stored.agent_id "default") sessions with
  | none =>
    simp [detectSessionBoundaries, h] at he
    subst he
    rfl
  | some st => simp [detectSessionBoundaries, h] at he

theorem errorPatterns_source_app (now : Nat) (db : List StoredEvent) (stored : StoredEvent) :
    ∀ e ∈ detectErrorPatterns now db stored, e.source_app = "auto-events" := by
  intro e he
  rcases List.mem_append.mp he with h | h
  · unfold timeoutRule at h
    split at h
    · split at h
      · simp at h
        subst h
        rfl
      · simp at h
    · simp at h
  · unfold repeatedFailureRule at h
    split at h
    · split at h
      · dsimp only at h
        split at h
        · simp at h
          subst h
          rfl
        · simp at h
      · simp at h
    · simp at h

theorem lifecycle_source_app (stored : StoredEvent) :
    ∀ e ∈ detectToolLifecycleEvents stored, e.source_app = "auto-events" := by
  intro e he
  unfold detectToolLifecycleEvents at he
  dsimp only at he
  split at he
  · simp at he
    subst he
    rfl
  · simp at he

/-- Claim C4: every synthetic event produced by the auto-event engine
carries `source_app = 'auto-events'`, and `processAutoEvents` returns the
empty list on any event whose `source_app` is `'auto-events'` — derivation
is exactly one layer deep. -/
theorem autoEvents_one_layer (sessions : SessionMap) (now : Nat)
    (db : List StoredEvent) (stored : StoredEvent) :
    (∀ e ∈ (processAutoEvents sessions now db stored).2, e.source_app = "auto-events") ∧
    (stored.source_app = "auto-events" → (processAutoEvents sessions now db stored).2 = []) := by
  constructor
  · intro e he
    unfold processAutoEvents at he
    split at he
    · simp at he
    · simp only [List.mem_append] at he
      rcases he with (h | h) | h
      · exact sessionBoundaries_source_app sessions stored e h
      · exact errorPatterns_source_app now db stored e h
      · exact lifecycle_source_app stored e h
  · intro h
    simp [processAutoEvents, h]

/-- Claim C4 witness: a synthetic event is never re-processed. -/
theorem autoEvents_one_layer_witness :
    (processAutoEvents [] 0 []
      { id := 1, event_id := "a1", source_app := "auto-events", session_id := "s1",
        event_type := "session.started", tool_name := none, summary := "x",
        payload := [], created_at := 0, run_id := none, agent_id := none,
        parent_event_id := none, task_id := none, duration_ms := none,
        exit_code := none, risk_level := none, agent_state := none,
        error_type := none }).2 = [] :=
  (autoEvents_one_layer [] 0 [] _).2 rfl

theorem lookup_map_update (key : String) (f : SessionState → SessionState) :
    ∀ (sessions : SessionMap) (st : SessionState),
      List.lookup key sessions = some st →
      List.lookup key
          (sessions.map (fun kv => if kv.1 = key then (kv.1, f kv.2) else kv)) =
        some (f st) := by
  intro sessions
  induction sessions with
  | nil => intro st h; simp [List.lookup] at h
  | cons kv rest ih =>
    obtain ⟨k2, v2⟩ := kv
    intro st h
    by_cases hk : k2 = key
    · subst hk
      simp [List.lookup] at h
      subst h
      rw [List.map_cons, if_pos rfl]
      simp [List.lookup]
    · have hb : (key == k2) = false := beq_eq_false_iff_ne.mpr (Ne.symm hk)
      simp [List.lookup, hb] at h
      rw [List.map_cons, if_neg hk]
      simp [List.lookup, hb]
      exact ih st h

/-- Claim C9: the Session Tracker emits exactly one `session.started`
event iff the `session_id:agent` key is absent from the map — the key is
then recorded with event count 1 and first/last-seen set to the event's
timestamp; for a present key nothing is emitted and the entry's last-seen
timestamp is updated and its count incremented. -/
theorem sessionTracker_transitions (sessions : SessionMap) (stored : StoredEvent) :
    (List.lookup (stored.session_id ++ ":" ++ strOr stored.agent_id "default") sessions = none →
      (detectSessionBoundaries sessions stored).2.map (fun e => e.event_type) =
        ["session.started"] ∧
      List.lookup (stored.session_id ++ ":" ++ strOr stored.agent_id "default")
          (detectSessionBoundaries sessions stored).1 =
        some { sessionId := stored.session_id
               agentId := strOr stored.agent_id "default"
               firstEventAt := stored.created_at
               lastEventAt := stored.created_at
               eventCount := 1 }) ∧
    (∀ st, List.lookup (stored.session_id ++ ":" ++ strOr stored.agent_id "default") sessions =
        some st →
      (detectSessionBoundaries sessions stored).2 = [] ∧
      List.lookup (stored.session_id ++ ":" ++ strOr stored.agent_id "default")
          (detectSessionBoundaries sessions stored).1 =
        some { st with lastEventAt := stored.created_at
                       eventCount := st.eventCount + 1 }) := by
  constructor
  · intro h
    constructor
    · simp [detectSessionBoundaries, h]
    · simp [detectSessionBoundaries, h, List.lookup_append, List.lookup]
  · intro st h
    constructor
    · simp [detectSessionBoundaries, h]
    · simp only [detectSessionBoundaries, h]
      exact lookup_map_update _
        (fun s => { s with lastEventAt := stored.created_at
                           eventCount := s.eventCount + 1 }) sessions st h

/-- First witness event for the session tracker (unseen key). -/
def evC9a : StoredEvent :=
  { id := 1, event_id := "e1", source_app := "app", session_id := "s1",
    event_type := "PreToolUse", tool_name := none, summary := "x",
    payload := [], created_at := 5, run_id := none, agent_id := some "a1",
    parent_event_id := none, task_id := none, duration_ms := none,
    exit_code := none, risk_level := none, agent_state := none,
    error_type := none }

/-- Second witness event for the session tracker (key already active). -/
def evC9b : StoredEvent :=
  { evC9a with id := 2, event_id := "e2", event_type := "PostToolUse",
               summary := "y", created_at := 9 }

/-- The session entry created by the first witness event. -/
def stC9 : SessionState :=
  { sessionId := "s1", agentId := "a1", firstEventAt := 5, lastEventAt := 5,
    eventCount := 1 }

/-- Claim C9 witness: a fresh key emits `session.started` and is recorded
with count 1; the same key seen again emits nothing, keeps its first-seen
timestamp, updates last-seen, and its count becomes 2. -/
theorem sessionTracker_transitions_witness :
    ((detectSessionBoundaries [] evC9a).2.map (fun e => e.event_type) =
        ["session.started"] ∧
      List.lookup "s1:a1" (detectSessionBoundaries [] evC9a).1 = some stC9) ∧
    ((detectSessionBoundaries [("s1:a1", stC9)] evC9b).2 = [] ∧
      List.lookup "s1:a1" (detectSessionBoundaries [("s1:a1", stC9)] evC9b).1 =
        some { sessionId := "s1", agentId := "a1", firstEventAt := 5,
               lastEventAt := 9, eventCount := 2 }) :=
  And.intro ((sessionTracker_transitions [] evC9a).1 rfl)
    ((sessionTracker_transitions [("s1:a1", stC9)] evC9b).2 stC9 rfl)

/-- Claim C7: inserting an event whose `event_id` already exists in the
store fails with the duplicate-id error (surfaced by the HTTP layer as a
409 conflict) and leaves the store unchanged. -/
theorem insertEvent_duplicate_rejected (genId : String) (now : Nat)
    (db : List StoredEvent) (e : IncomingEvent) (i : String) (x : StoredEvent)
    (h1 : e.event_id = some i) (h2 : i ≠ "") (h3 : x ∈ db) (h4 : x.event_id = i) :
    insertEvent genId now db e = Except.error InsertError.duplicateEventId ∧
    insertEventStore genId now db e = db := by
  have hid : resolvedEventId genId e = i := by simp [resolvedEventId, h1, h2]
  have hany : db.any (fun x2 => x2.event_id == resolvedEventId genId e) = true :=
    List.any_eq_true.mpr ⟨x, h3, by simp [hid, h4]⟩
  constructor
  · simp [insertEvent, hany]
  · simp [insertEventStore, insertEvent, hany]

/-- The pre-existing row of the duplicate-insert witness. -/
def rowC7 : StoredEvent :=
  { id := 1, event_id := "dup", source_app := "app", session_id := "s1",
    event_type := "PreToolUse", tool_name := none, summary := "x",
    payload := [], created_at := 0, run_id := none, agent_id := none,
    parent_event_id := none, task_id := none, duration_ms := none,
    exit_code := none, risk_level := none, agent_state := none,
    error_type := none }

/-- Claim C7 witness: re-inserting an already-present event id fails and
leaves the single-row store as it was. -/
theorem insertEvent_duplicate_rejected_witness :
    insertEvent "uuid1" 7 [rowC7]
      { source_app := "app2", session_id := "s2", event_type := "Stop",
        event_id := some "dup" } =
      Except.error InsertError.duplicateEventId ∧
    insertEventStore "uuid1" 7 [rowC7]
      { source_app := "app2", session_id := "s2", event_type := "Stop",
        event_id := some "dup" } = [rowC7] :=
  insertEvent_duplicate_rejected "uuid1" 7 [rowC7] _ "dup" rowC7 rfl
    (by decide) (List.mem_singleton.mpr rfl) rfl

/-- Claim C10: a truthy caller-supplied summary is stored character for
character; redaction touches only the payload — the stored summary and
tool name are the caller's verbatim, even when secret-shaped. -/
theorem insertEvent_summary_verbatim (genId : String) (now : Nat)
    (db : List StoredEvent) (e : IncomingEvent) (s : String)
    (hs : e.summary = some s) (hne : s ≠ "")
    (hdup : ∀ x ∈ db, x.event_id ≠ resolvedEventId genId e) :
    ∃ stored : StoredEvent,
      insertEvent genId now db e = Except.ok (db ++ [stored], stored) ∧
      stored.summary = s ∧
      stored.tool_name = e.tool_name ∧
      stored.payload = redactPayload (e.payload.getD []) := by
  have hany : db.any (fun x2 => x2.event_id == resolvedEventId genId e) = false := by
    rw [List.any_eq_false]
    intro x hx
    simp [hdup x hx]
  refine ⟨{ id := db.length + 1
            event_id := resolvedEventId genId e
            source_app := e.source_app
            session_id := e.session_id
            event_type := e.event_type
            tool_name := e.tool_name
            summary := generateSummary e
            payload := redactPayload (e.payload.getD [])
            created_at := e.timestamp.getD now
            run_id := e.run_id
            agent_id := e.agent_id
            parent_event_id := e.parent_event_id
            task_id := e.task_id
            duration_ms := e.duration_ms
            exit_code := e.exit_code
            risk_level := e.risk_level
            agent_state := e.agent_state
            error_type := e.error_type }, ?_, ?_, rfl, rfl⟩
  · simp [insertEvent, hany]
  · simp [generateSummary, hs, hne]

/-- Claim C10 witness: a secret-shaped summary (an AWS-style key) survives
insertion verbatim while the payload is still redacted. -/
theorem insertEvent_summary_verbatim_witness :
    ∃ stored : StoredEvent,
      insertEvent "uuid2" 3 []
        { source_app := "app", session_id := "s1", event_type := "PostToolUse",
          summary := some "AKIA0123456789ABCDEF" } =
        Except.ok ([] ++ [stored], stored) ∧
      stored.summary = "AKIA0123456789ABCDEF" ∧
      stored.tool_name = none ∧
      stored.payload = redactPayload [] :=
  insertEvent_summary_verbatim "uuid2" 3 [] _ _ rfl (by decide) (by simp)

/-- The `error.unhandled` event emitted by the repeated-failure rule for a
triggering event `stored` with tool `t` and window count `cnt`. -/
def repeatedFailureEvent (stored : StoredEvent) (t : String) (cnt : Nat) :
    IncomingEvent :=
  { source_app := "auto-events"
    session_id := stored.session_id
    event_type := "error.unhandled"
    tool_name := some t
    summary := some ("Repeated failures: " ++ t ++ " (" ++ toString cnt ++ " in 5min)")
    agent_id := orNull stored.agent_id
    run_id := orNull stored.run_id
    risk_level := some "high"
    error_type := some "repeated_failure"
    payload := some [("error_count", Json.num cnt),
      ("window_minutes", Json.num 5), ("tool", Json.str t.toList)] }

/-- Claim C2: on a stored event with a non-null non-zero exit code and a
tool name, the error-pattern detector emits one `error.unhandled` event
(risk high, error_type `repeated_failure`, count in the payload) exactly
when the count of same-tool, same-agent-bucket, non-zero-exit events in
the last five minutes is at least 3 — the rule consults no dedup state, so
it re-fires on every qualifying event past the threshold; and the count
includes the current insert itself whenever it is in the window. -/
theorem repeatedFailure_threshold (now : Nat) (db : List StoredEvent)
    (stored : StoredEvent) (c : Int) (t : String)
    (hc : stored.exit_code = some c) (hc0 : c ≠ 0)
    (ht : stored.tool_name = some t) (ht0 : t ≠ "") :
    ((detectErrorPatterns now db stored).filter
        (fun e => e.event_type == "error.unhandled") =
      if 3 ≤ repeatedFailureCount now db t (stored.agent_id.getD "") then
        [repeatedFailureEvent stored t
          (repeatedFailureCount now db t (stored.agent_id.getD ""))]
      else []) ∧
    (stored ∈ db → now - 5 * 60 * 1000 ≤ stored.created_at →
      1 ≤ repeatedFailureCount now db t (stored.agent_id.getD "")) := by
  constructor
  · rw [detectErrorPatterns, List.filter_append]
    have h1 : (timeoutRule stored).filter (fun e => e.event_type == "error.unhandled") = [] := by
      unfold timeoutRule
      split
      · split
        · simp
        · simp
      · simp
    rw [h1]
    unfold repeatedFailureRule
    rw [hc, ht]
    dsimp only
    rw [if_pos (show c ≠ 0 ∧ t ≠ "" from ⟨hc0, ht0⟩)]
    split
    · simp [repeatedFailureEvent]
    · rfl
  · intro hmem hwin
    have : stored ∈ db.filter (fun e => decide (
        e.tool_name = some t ∧
        e.exit_code ≠ some 0 ∧ e.exit_code ≠ none ∧
        (e.agent_id = some (stored.agent_id.getD "") ∨
          (e.agent_id = none ∧ stored.agent_id.getD "" = "")) ∧
        now - 5 * 60 * 1000 ≤ e.created_at)) := by
      rw [List.mem_filter]
      refine ⟨hmem, ?_⟩
      rw [decide_eq_true_eq]
      refine ⟨ht, by simp [hc, hc0], by simp [hc], ?_, hwin⟩
      cases ha : stored.agent_id with
      | none => right; simp [ha]
      | some a => left; simp [ha]
    have hlen := List.length_pos.mpr (List.ne_nil_of_mem this)
    simpa [repeatedFailureCount] using hlen

/-- The `n`-th qualifying failure event of the repeated-failure witness
scenario (same tool `Bash`, same agent `a1`, exit code 1, one second
apart). -/
def evC2 (n : Nat) : StoredEvent :=
  { id := n, event_id := "f" ++ toString n, source_app := "app",
    session_id := "s1", event_type := "PostToolUse", tool_name := some "Bash",
    summary := "x", payload := [], created_at := 1000 * n, run_id := none,
    agent_id := some "a1", parent_event_id := none, task_id := none,
    duration_ms := none, exit_code := some 1, risk_level := none,
    agent_state := none, error_type := none }

/-- Claim C2 witness: with three qualifying failures in the store the
third emits exactly one repeated-failure event with count 3; with four,
the fourth emits another (count 4) — the rule re-fires past the
threshold. -/
theorem repeatedFailure_threshold_witness :
    ((detectErrorPatterns 5000 [evC2 1, evC2 2, evC2 3] (evC2 3)).filter
        (fun e => e.event_type == "error.unhandled") =
      [repeatedFailureEvent (evC2 3) "Bash" 3]) ∧
    ((detectErrorPatterns 6000 [evC2 1, evC2 2, evC2 3, evC2 4] (evC2 4)).filter
        (fun e => e.event_type == "error.unhandled") =
      [repeatedFailureEvent (evC2 4) "Bash" 4]) := by
  constructor
  · have h := (repeatedFailure_threshold 5000 [evC2 1, evC2 2, evC2 3] (evC2 3)
      1 "Bash" rfl (by decide) rfl (by decide)).1
    rw [h]
    have hcnt : repeatedFailureCount 5000 [evC2 1, evC2 2, evC2 3] "Bash"
        ((evC2 3).agent_id.getD "") = 3 := by decide
    rw [hcnt]
    rfl
  · have h := (repeatedFailure_threshold 6000 [evC2 1, evC2 2, evC2 3, evC2 4]
      (evC2 4) 1 "Bash" rfl (by decide) rfl (by decide)).1
    rw [h]
    have hcnt : repeatedFailureCount 6000 [evC2 1, evC2 2, evC2 3, evC2 4] "Bash"
        ((evC2 4).agent_id.getD "") = 4 := by decide
    rw [hcnt]
    rfl

theorem repeatedFailureRule_event_type (now : Nat) (db : List StoredEvent)
    (stored : StoredEvent) :
    ∀ e ∈ repeatedFailureRule now db stored, e.event_type = "error.unhandled" := by
  intro e he
  unfold repeatedFailureRule at he
  split at he
  · split at he
    · dsimp only at he
      split at he
      · simp at he
        subst he
        rfl
      · simp at he
    · simp at he
  · simp at he

theorem lifecycle_event_type (stored : StoredEvent) :
    ∀ e ∈ detectToolLifecycleEvents stored, e.event_type = "tool.output_truncated" := by
  intro e he
  unfold detectToolLifecycleEvents at he
  dsimp only at he
  split at he
  · simp at he
    subst he
    rfl
  · simp at he

/-- The non-`PostToolUse` event of the timeout counterexample: a `Stop`
event carrying `duration_ms = 45000`. -/
def evC1 : StoredEvent :=
  { id := 1, event_id := "e1", source_app := "app", session_id := "s1",
    event_type := "Stop", tool_name := some "Bash", summary := "x",
    payload := [], created_at := 0, run_id := none, agent_id := none,
    parent_event_id := none, task_id := none, duration_ms := some 45000,
    exit_code := none, risk_level := none, agent_state := none,
    error_type := none }

/-- Claim C1 counterexample: a newly stored non-synthetic event with
`duration_ms = 45000 > 30000` whose `event_type` is not `PostToolUse`
triggers no `tool.timeout` — the rule additionally requires
`event_type === 'PostToolUse'`, which the claim omits. -/
theorem timeout_rule_counterexample :
    evC1.source_app ≠ "auto-events" ∧ evC1.duration_ms = some 45000 ∧
    (30000 : Int) < 45000 ∧
    ∀ e ∈ (processAutoEvents [] 0 [] evC1).2, e.event_type ≠ "tool.timeout" := by
  refine ⟨by decide, rfl, by decide, ?_⟩
  intro e he
  have hs : (processAutoEvents [] 0 [] evC1).2 =
      (detectSessionBoundaries [] evC1).2 ++ detectErrorPatterns 0 [] evC1 ++
        detectToolLifecycleEvents evC1 := by
    simp [processAutoEvents, evC1]
  rw [hs] at he
  simp only [List.mem_append] at he
  rcases he with (h | h) | h
  · rw [sessionBoundaries_event_type [] evC1 e h]
    decide
  · have h2 : detectErrorPatterns 0 [] evC1 = [] := by
      rw [detectErrorPatterns]
      have ha : timeoutRule evC1 = [] := rfl
      have hb : repeatedFailureRule 0 [] evC1 = [] := rfl
      rw [ha, hb]
      rfl
    rw [h2] at h
    simp at h
  · rw [lifecycle_event_type evC1 e h]
    decide

/-- The `tool.timeout` event emitted by the timeout rule for a triggering
event `stored` with duration `d`. -/
def timeoutEvent (stored : StoredEvent) (d : Int) : IncomingEvent :=
  { source_app := "auto-events"
    session_id := stored.session_id
    event_type := "tool.timeout"
    tool_name := stored.tool_name
    summary := some ("Tool timeout: " ++ strOr stored.tool_name "unknown" ++
      " took " ++ toString d ++ "ms")
    parent_event_id := some stored.event_id
    agent_id := orNull stored.agent_id
    run_id := orNull stored.run_id
    duration_ms := some d
    risk_level := some "high"
    payload := some [("threshold_ms", Json.num 30000), ("actual_ms", Json.num d)] }

/-- Claim C1 (amended): for every newly stored non-synthetic event whose
`event_type` is `PostToolUse` and whose non-null `duration_ms` exceeds
30000, the engine emits exactly one `tool.timeout` event with
`parent_event_id` the original's id, `risk_level` high, and the threshold
and actual duration in the payload. -/
theorem timeout_rule_amended (sessions : SessionMap) (now : Nat)
    (db : List StoredEvent) (stored : StoredEvent) (d : Int)
    (hsrc : stored.source_app ≠ "auto-events")
    (hpt : stored.event_type = "PostToolUse")
    (hd : stored.duration_ms = some d) (h30 : 30000 < d) :
    (processAutoEvents sessions now db stored).2.filter
        (fun e => e.event_type == "tool.timeout") = [timeoutEvent stored d] := by
  have hs : (processAutoEvents sessions now db stored).2 =
      (detectSessionBoundaries sessions stored).2 ++
        detectErrorPatterns now db stored ++ detectToolLifecycleEvents stored := by
    simp [processAutoEvents, hsrc]
  rw [hs, List.filter_append, List.filter_append]
  have h1 : (detectSessionBoundaries sessions stored).2.filter
      (fun e => e.event_type == "tool.timeout") = [] := by
    rw [List.filter_eq_nil_iff]
    intro e he
    simp [sessionBoundaries_event_type sessions stored e he]
  have h3 : (detectToolLifecycleEvents stored).filter
      (fun e => e.event_type == "tool.timeout") = [] := by
    rw [List.filter_eq_nil_iff]
    intro e he
    simp [lifecycle_event_type stored e he]
  rw [h1, h3]
  rw [detectErrorPatterns, List.filter_append]
  have h2 : (repeatedFailureRule now db stored).filter
      (fun e => e.event_type == "tool.timeout") = [] := by
    rw [List.filter_eq_nil_iff]
    intro e he
    simp [repeatedFailureRule_event_type now db stored e he]
  rw [h2]
  have hd0 : d ≠ 0 := by omega
  rw [timeoutRule, hd]
  dsimp only
  rw [if_pos ⟨hpt, hd0, h30⟩]
  simp [timeoutEvent]

/-- The spec's scenario event: `PostToolUse` on tool `Bash` with
`duration_ms = 45000` under run `r1`, agent `a1`. -/
def evC1w : StoredEvent :=
  { id := 1, event_id := "orig1", source_app := "claude-agent",
    session_id := "s1", event_type := "PostToolUse", tool_name := some "Bash",
    summary := "x", payload := [], created_at := 0, run_id := some "r1",
    agent_id := some "a1", parent_event_id := none, task_id := none,
    duration_ms := some 45000, exit_code := none, risk_level := none,
    agent_state := none, error_type := none }

/-- Claim C1 witness: the spec's scenario emits exactly one `tool.timeout`
with parent `orig1`, risk high, and payload thresholds 30000/45000. -/
theorem timeout_rule_amended_witness :
    (processAutoEvents [] 0 [] evC1w).2.filter
        (fun e => e.event_type == "tool.timeout") = [timeoutEvent evC1w 45000] :=
  timeout_rule_amended [] 0 [] evC1w 45000 (by decide) rfl rfl (by decide)

theorem ancestorWalk_length_le (db : List StoredEvent) :
    ∀ (fuel : Nat) (visited : List String) (cur : Option String),
      (ancestorWalk db fuel visited cur).length ≤ fuel := by
  intro fuel
  induction fuel with
  | zero => intro visited cur; cases cur <;> simp [ancestorWalk]
  | succ n ih =>
    intro visited cur
    cases cur with
    | none => simp [ancestorWalk]
    | some cid =>
      rw [ancestorWalk]
      split
      · simp
      · split
        · simp
        · split
          · simp
          · rename_i e heq
            have := ih (cid :: visited) e.parent_event_id
            simp only [List.length_append, List.length_cons, List.length_nil]
            omega

/-- Event `A` of the manually constructed 2-cycle (parent `B`). -/
def evA3 : StoredEvent :=
  { id := 1, event_id := "A", source_app := "app", session_id := "s1",
    event_type := "PreToolUse", tool_name := none, summary := "x",
    payload := [], created_at := 0, run_id := none, agent_id := none,
    parent_event_id := some "B", task_id := none, duration_ms := none,
    exit_code := none, risk_level := none, agent_state := none,
    error_type := none }

/-- Event `B` of the 2-cycle (parent `A`). -/
def evB3 : StoredEvent :=
  { evA3 with id := 2, event_id := "B", parent_event_id := some "A" }

/-- The 2-cycle store `A → B → A`. -/
def dbC3 : List StoredEvent := [evA3, evB3]

/-- A 3-element acyclic chain for the root-first-order part of the walk's
behaviour: `C → B → A` with `A` the root. -/
def evRoot3 : StoredEvent :=
  { evA3 with id := 3, event_id := "R", parent_event_id := none }

def evMid3 : StoredEvent :=
  { evA3 with id := 4, event_id := "M", parent_event_id := some "R" }

def evLeaf3 : StoredEvent :=
  { evA3 with id := 5, event_id := "L", parent_event_id := some "M" }

def dbChain3 : List StoredEvent := [evRoot3, evMid3, evLeaf3]

/-- Claim C3 counterexample: on the 2-cycle `A → B → A` the walk returns
`[A, B]` for focal event `A` — the focal event *is* included in its own
ancestor list (the visited set never contains the focal id), refuting the
never-included clause. -/
theorem ancestors_focal_included_counterexample :
    evA3.event_id = "A" ∧ evA3 ∈ getAncestors dbC3 "A" := by
  refine ⟨rfl, ?_⟩
  rw [show getAncestors dbC3 "A" = [evA3, evB3] from rfl]
  exact List.mem_cons_self _ _

/-- Claim C3 (amended): the ancestor walk always terminates with at most
25 ancestors, in root-first order along the parent chain; it returns `[]`
when the focal event has a null parent; it stops without error when the
first parent id is absent from the store; and on a manually constructed
2-cycle `A → B → A` it terminates within 25 hops without error returning
`[A, B]` — which contains the focal event itself, since the visited set is
seeded empty. -/
theorem ancestors_walk_amended :
    (∀ (db : List StoredEvent) (id : String),
      (getAncestors db id).length ≤ MAX_ANCESTOR_DEPTH) ∧
    (∀ (db : List StoredEvent) (id : String) (focal : StoredEvent),
      findEvent db id = some focal → focal.parent_event_id = none →
      getAncestors db id = []) ∧
    (∀ (db : List StoredEvent) (id pid : String) (focal : StoredEvent),
      findEvent db id = some focal → focal.parent_event_id = some pid →
      findEvent db pid = none → getAncestors db id = []) ∧
    getAncestors dbChain3 "L" = [evRoot3, evMid3] ∧
    getAncestors dbC3 "A" = [evA3, evB3] := by
  refine ⟨?_, ?_, ?_, rfl, rfl⟩
  · intro db id
    unfold getAncestors
    split
    · simp
    · exact ancestorWalk_length_le db MAX_ANCESTOR_DEPTH [] _
  · intro db id focal hf hp
    unfold getAncestors
    rw [hf]
    dsimp only
    rw [hp]
    rfl
  · intro db id pid focal hf hp hd
    unfold getAncestors
    rw [hf]
    dsimp only
    rw [hp]
    rw [show MAX_ANCESTOR_DEPTH = 24 + 1 from rfl, ancestorWalk]
    split
    · rfl
    · split
      · rfl
      · split
        · rfl
        · rename_i e heq
          rw [hd] at heq
          exact Option.noConfusion heq

/-- Claim C3 witness: the walk bounds instantiated on the 2-cycle store
and a no-parent focal event. -/
theorem ancestors_walk_amended_witness :
    (getAncestors dbC3 "A").length ≤ MAX_ANCESTOR_DEPTH ∧
    getAncestors dbChain3 "R" = [] :=
  And.intro (ancestors_walk_amended.1 dbC3 "A")
    (ancestors_walk_amended.2.1 dbChain3 "R" evRoot3 rfl rfl)

theorem sumVals_bump (k : String) :
    ∀ m : List (String × Nat), sumVals (bump m k) = sumVals m + 1 := by
  intro m
  induction m with
  | nil => simp [bump, sumVals]
  | cons kv rest ih =>
    obtain ⟨k2, v⟩ := kv
    by_cases hk : k2 = k
    · simp [bump, hk, sumVals]
      omega
    · simp [bump, hk, sumVals] at ih ⊢
      omega

theorem foldStats_tasks_completed (l : List StoredEvent) :
    ∀ acc : RunSummaryStats,
      (List.foldl statsStep acc l).tasks_completed =
        acc.tasks_completed + l.countP (fun e => e.event_type == "task.completed") := by
  induction l with
  | nil => intro acc; simp
  | cons e rest ih =>
    intro acc
    rw [List.foldl_cons, ih, List.countP_cons]
    by_cases h : e.event_type = "task.completed" <;>
      simp [statsStep, h] <;> omega

theorem foldStats_tasks_failed (l : List StoredEvent) :
    ∀ acc : RunSummaryStats,
      (List.foldl statsStep acc l).tasks_failed =
        acc.tasks_failed + l.countP (fun e => e.event_type == "task.failed") := by
  induction l with
  | nil => intro acc; simp
  | cons e rest ih =>
    intro acc
    rw [List.foldl_cons, ih, List.countP_cons]
    by_cases h : e.event_type = "task.failed" <;>
      simp [statsStep, h] <;> omega

theorem foldStats_handoffs (l : List StoredEvent) :
    ∀ acc : RunSummaryStats,
      (List.foldl statsStep acc l).handoffs =
        acc.handoffs + l.countP (fun e => e.event_type == "handoff.completed") := by
  induction l with
  | nil => intro acc; simp
  | cons e rest ih =>
    intro acc
    rw [List.foldl_cons, ih, List.countP_cons]
    by_cases h : e.event_type = "handoff.completed" <;>
      simp [statsStep, h] <;> omega

theorem foldStats_event_type_sum (l : List StoredEvent) :
    ∀ acc : RunSummaryStats,
      sumVals (List.foldl statsStep acc l).event_type_counts =
        sumVals acc.event_type_counts + l.length := by
  induction l with
  | nil => intro acc; simp
  | cons e rest ih =>
    intro acc
    rw [List.foldl_cons, ih]
    have : (statsStep acc e).event_type_counts = bump acc.event_type_counts e.event_type := rfl
    rw [this, sumVals_bump]
    simp
    omega

theorem foldStats_total_events (l : List StoredEvent) :
    ∀ acc : RunSummaryStats,
      (List.foldl statsStep acc l).total_events = acc.total_events := by
  induction l with
  | nil => intro acc; simp
  | cons e rest ih =>
    intro acc
    rw [List.foldl_cons, ih]
    rfl

/-- Claim C8: the `run.summary` payload's `tasks_completed`,
`tasks_failed` and `handoffs` counters equal the number of
`task.completed` / `task.failed` / `handoff.completed` events among the
store's events matching the (run_id, agent_id) pair, and the
`event_type_counts` values sum to `total_events`, which equals the number
of matching events. -/
theorem runSummary_counters (now : Nat) (db : List StoredEvent)
    (runId agentId : String) :
    List.lookup "tasks_completed"
        ((generateRunSummary now db runId agentId).payload.getD []) =
      some (Json.num ((db.filter (fun e =>
        decide (e.run_id = some runId ∧ e.agent_id = some agentId))).countP
          (fun e => e.event_type == "task.completed"))) ∧
    List.lookup "tasks_failed"
        ((generateRunSummary now db runId agentId).payload.getD []) =
      some (Json.num ((db.filter (fun e =>
        decide (e.run_id = some runId ∧ e.agent_id = some agentId))).countP
          (fun e => e.event_type == "task.failed"))) ∧
    List.lookup "handoffs"
        ((generateRunSummary now db runId agentId).payload.getD []) =
      some (Json.num ((db.filter (fun e =>
        decide (e.run_id = some runId ∧ e.agent_id = some agentId))).countP
          (fun e => e.event_type == "handoff.completed"))) ∧
    sumVals (runStats db runId agentId).event_type_counts =
      (runStats db runId agentId).total_events ∧
    (runStats db runId agentId).total_events =
      (db.filter (fun e =>
        decide (e.run_id = some runId ∧ e.agent_id = some agentId))).length := by
  have hperm := List.mergeSort_perm
    (db.filter (fun e => decide (e.run_id = some runId ∧ e.agent_id = some agentId)))
    (fun e1 e2 => decide (e1.created_at ≤ e2.created_at))
  have hpl : (generateRunSummary now db runId agentId).payload.getD [] =
      statsPayload (runStats db runId agentId) ++
        ((match (runEvents db runId agentId).head? with
          | some e => [("start_time", Json.num e.created_at)]
          | none => []) ++
         (match (runEvents db runId agentId).getLast? with
          | some e => [("end_time", Json.num e.created_at)]
          | none => [])) := by
    simp [generateRunSummary, runStats, List.append_assoc]
  have hc : (runStats db runId agentId).tasks_completed =
      (db.filter (fun e =>
        decide (e.run_id = some runId ∧ e.agent_id = some agentId))).countP
        (fun e => e.event_type == "task.completed") := by
    rw [runStats, foldStats_tasks_completed]
    rw [runEvents, hperm.countP_eq]
    simp [initStats]
  have hf : (runStats db runId agentId).tasks_failed =
      (db.filter (fun e =>
        decide (e.run_id = some runId ∧ e.agent_id = some agentId))).countP
        (fun e => e.event_type == "task.failed") := by
    rw [runStats, foldStats_tasks_failed]
    rw [runEvents, hperm.countP_eq]
    simp [initStats]
  have hh : (runStats db runId agentId).handoffs =
      (db.filter (fun e =>
        decide (e.run_id = some runId ∧ e.agent_id = some agentId))).countP
        (fun e => e.event_type == "handoff.completed") := by
    rw [runStats, foldStats_handoffs]
    rw [runEvents, hperm.countP_eq]
    simp [initStats]
  have htot : (runStats db runId agentId).total_events =
      (db.filter (fun e =>
        decide (e.run_id = some runId ∧ e.agent_id = some agentId))).length := by
    rw [runStats, foldStats_total_events]
    rw [runEvents, hperm.length_eq]
    simp [initStats]
  refine ⟨?_, ?_, ?_, ?_, htot⟩
  · rw [hpl, List.lookup_append]
    rw [show List.lookup "tasks_completed" (statsPayload (runStats db runId agentId)) =
      some (Json.num (runStats db runId agentId).tasks_completed) from rfl]
    rw [hc]
    rfl
  · rw [hpl, List.lookup_append]
    rw [show List.lookup "tasks_failed" (statsPayload (runStats db runId agentId)) =
      some (Json.num (runStats db runId agentId).tasks_failed) from rfl]
    rw [hf]
    rfl
  · rw [hpl, List.lookup_append]
    rw [show List.lookup "handoffs" (statsPayload (runStats db runId agentId)) =
      some (Json.num (runStats db runId agentId).handoffs) from rfl]
    rw [hh]
    rfl
  · rw [runStats, foldStats_event_type_sum, foldStats_total_events]
    simp [initStats, sumVals]

/-! ### Redaction lemmas

The C5/C6 counterexamples need strings beyond the 2048-byte stderr budget;
they are built as a long all-space filler (matched by none of the seven
patterns) followed by a short concrete suffix, and the pipeline is
evaluated symbolically over the filler and concretely over the suffix. -/

theorem matchP1_space (b : Bool) (cs : List Char) : matchP1 b (' ' :: cs) = none := rfl

theorem matchP2_space (cs : List Char) : matchP2 (' ' :: cs) = none := rfl

theorem matchP3_space (cs : List Char) : matchP3 (' ' :: cs) = none := rfl

theorem matchP4_space (cs : List Char) : matchP4 (' ' :: cs) = none := rfl

theorem matchP5_space (cs : List Char) : matchP5 (' ' :: cs) = none := rfl

theorem matchP6_space (cs : List Char) : matchP6 (' ' :: cs) = none := rfl

theorem matchP7_space (cs : List Char) : matchP7 (' ' :: cs) = none := rfl

theorem replaceAux_space (m : PatternFn)
    (hm : ∀ (b : Bool) (cs : List Char), m b (' ' :: cs) = none) (t : List Char) :
    ∀ n k : Nat, replaceAux m (n + k) false (List.replicate n ' ' ++ t) =
      List.replicate n ' ' ++ replaceAux m k false t := by
  intro n
  induction n with
  | zero => intro k; simp
  | succ n ih =>
    intro k
    have h1 : n + 1 + k = n + k + 1 := by omega
    rw [h1, List.replicate_succ, List.cons_append]
    have h2 : replaceAux m (n + k + 1) false (' ' :: (List.replicate n ' ' ++ t)) =
        ' ' :: replaceAux m (n + k) (isWordChar ' ') (List.replicate n ' ' ++ t) := by
      rw [replaceAux, hm]
    rw [h2, show isWordChar ' ' = false from rfl, ih k]
    simp

theorem replaceP_space (m : PatternFn)
    (hm : ∀ (b : Bool) (cs : List Char), m b (' ' :: cs) = none)
    (n : Nat) (t : List Char) :
    replaceP m (List.replicate n ' ' ++ t) = List.replicate n ' ' ++ replaceP m t := by
  rw [replaceP, replaceP]
  have hlen : (List.replicate n ' ' ++ t).length = n + t.length := by simp
  rw [hlen]
  exact replaceAux_space m hm t n t.length

theorem redactSecrets_space (n : Nat) (t : List Char) :
    redactSecrets (List.replicate n ' ' ++ t) =
      List.replicate n ' ' ++ redactSecrets t := by
  rw [redactSecrets, redactSecrets]
  rw [replaceP_space matchP1 matchP1_space,
      replaceP_space _ (fun _ cs => matchP2_space cs),
      replaceP_space _ (fun _ cs => matchP3_space cs),
      replaceP_space _ (fun _ cs => matchP4_space cs),
      replaceP_space _ (fun _ cs => matchP5_space cs),
      replaceP_space _ (fun _ cs => matchP6_space cs),
      replaceP_space _ (fun _ cs => matchP7_space cs)]

theorem utf8Len_append (a b : List Char) :
    utf8Len (a ++ b) = utf8Len a + utf8Len b := by
  simp [utf8Len]

theorem utf8Len_replicate_space (n : Nat) :
    utf8Len (List.replicate n ' ') = n := by
  simp [utf8Len, List.map_replicate, List.sum_replicate,
    show Char.utf8Size ' ' = 1 from rfl]

theorem takeBytes_space (t : List Char) :
    ∀ n k : Nat, takeBytes (n + k) (List.replicate n ' ' ++ t) =
      List.replicate n ' ' ++ takeBytes k t := by
  intro n
  induction n with
  | zero => intro k; simp
  | succ n ih =>
    intro k
    have h1 : n + 1 + k = n + k + 1 := by omega
    rw [h1, List.replicate_succ, List.cons_append, takeBytes]
    rw [if_pos (show Char.utf8Size ' ' ≤ n + k + 1 by
      rw [show Char.utf8Size ' ' = 1 from rfl]; omega)]
    rw [show n + k + 1 - Char.utf8Size ' ' = n + k from by
      rw [show Char.utf8Size ' ' = 1 from rfl]; omega]
    rw [ih k]
    rfl

theorem truncateOutput_space (n k : Nat) (t : List Char) (hk : k < utf8Len t) :
    truncateOutput (List.replicate n ' ' ++ t) (n + k) =
      List.replicate n ' ' ++ (takeBytes k t ++ truncationMarker (utf8Len t - k)) := by
  rw [truncateOutput]
  rw [if_neg (by rw [utf8Len_append, utf8Len_replicate_space]; omega)]
  rw [takeBytes_space]
  rw [utf8Len_append, utf8Len_replicate_space]
  rw [show n + utf8Len t - (n + k) = utf8Len t - k from by omega]
  rw [List.append_assoc]

theorem redactPayload_stderr (s : List Char) :
    redactPayload [("stderr", Json.str s)] =
      [("stderr", Json.str (truncateOutput (redactSecrets s) 2048))] := by
  have hout : containsSub "stdout".toList ("root".toList ++ '.' :: "stderr".toList) = false := by
    decide
  have herr : containsSub "stderr".toList ("root".toList ++ '.' :: "stderr".toList) = true := by
    decide
  rw [redactPayload]
  rw [redactPayloadRecursive]
  rw [redactObj]
  rw [redactObj]
  rw [redactPayloadRecursive]
  rw [redactString]
  rw [hout]
  rw [herr]
  simp [DEFAULT_CONFIG]

theorem redactPayload_stdout (s : List Char) :
    redactPayload [("stdout", Json.str s)] =
      [("stdout", Json.str (truncateOutput (redactSecrets s) 4096))] := by
  have hout : containsSub "stdout".toList ("root".toList ++ '.' :: "stdout".toList) = true := by
    decide
  rw [redactPayload]
  rw [redactPayloadRecursive]
  rw [redactObj]
  rw [redactObj]
  rw [redactPayloadRecursive]
  rw [redactString]
  rw [hout]
  simp [DEFAULT_CONFIG]

/-- Modelled from the spec's claimed ordering for C6: truncate the string
to the byte budget first, then scan the truncated value against the secret
patterns.  This is the comparison definition; the source's `redactString`
applies `redactSecrets` before `truncateOutput`. -/
def truncateThenScan (s : List Char) (maxBytes : Nat) : List Char :=
  redactSecrets (truncateOutput s maxBytes)

/-- Claim C6 (amended): for a string payload field at a `stdout` (resp.
`stderr`) key path, the redacted value is the original scanned against the
secret patterns *first* and then truncated to the 4096- (resp. 2048-)
byte budget — secret scanning happens before truncation, not after. -/
theorem redaction_scan_before_truncate (s : List Char) :
    redactPayload [("stdout", Json.str s)] =
      [("stdout", Json.str (truncateOutput (redactSecrets s) 4096))] ∧
    redactPayload [("stderr", Json.str s)] =
      [("stderr", Json.str (truncateOutput (redactSecrets s) 2048))] :=
  ⟨redactPayload_stdout s, redactPayload_stderr s⟩

/-- The C6 counterexample string: 2040 bytes of filler, then an AWS-style
key that straddles the 2048-byte stderr budget. -/
def sC6 : List Char := List.replicate 2040 ' ' ++ "AKIA0123456789ABCDEF".toList

/-- Claim C6 counterexample: on `sC6` the stored value differs from the
claimed truncate-then-scan value — the code scans first (the key becomes
`***REDACTED***`, then is cut to `***REDAC`), while the claimed order cuts
first (leaving `AKIA0123`, which no longer matches any pattern). -/
theorem redaction_order_counterexample :
    redactPayload [("stderr", Json.str sC6)] ≠
      [("stderr", Json.str (truncateThenScan sC6 2048))] := by
  have hsecCode : redactSecrets sC6 = List.replicate 2040 ' ' ++ redactedMarker := by
    rw [sC6, redactSecrets_space]
    rw [show redactSecrets "AKIA0123456789ABCDEF".toList = redactedMarker from by decide]
  have ht1 := truncateOutput_space 2040 8 redactedMarker (by decide)
  rw [show (2040:Nat) + 8 = 2048 from rfl] at ht1
  have hcode : truncateOutput (redactSecrets sC6) 2048 =
      List.replicate 2040 ' ' ++ (takeBytes 8 redactedMarker ++ truncationMarker 6) := by
    rw [hsecCode, ht1]
    rw [show utf8Len redactedMarker - 8 = 6 from by decide]
  have ht2 := truncateOutput_space 2040 8 "AKIA0123456789ABCDEF".toList (by decide)
  rw [show (2040:Nat) + 8 = 2048 from rfl] at ht2
  have hclaim : truncateThenScan sC6 2048 =
      List.replicate 2040 ' ' ++
        redactSecrets (takeBytes 8 "AKIA0123456789ABCDEF".toList ++ truncationMarker 12) := by
    rw [truncateThenScan, sC6, ht2]
    rw [show utf8Len "AKIA0123456789ABCDEF".toList - 8 = 12 from by decide]
    rw [redactSecrets_space]
  rw [redactPayload_stderr, hcode, hclaim]
  intro h
  simp only [List.cons.injEq, Prod.mk.injEq, Json.str.injEq, and_true, true_and] at h
  have h2 := List.append_cancel_left h
  exact absurd h2 (by decide)

/-- The C5 counterexample string: a 2100-byte filler (no secret-pattern
matches) at a `stderr` key, 52 bytes over the 2048-byte budget. -/
def sC5 : List Char := List.replicate 2100 ' '

/-- Claim C5 counterexample: redaction is not idempotent — the first pass
truncates `sC5` and appends `'\n... [truncated 52 bytes]'`, which puts the
value 25 bytes over budget again, so the second pass truncates once more
and records `'... [truncated 25 bytes]'` instead. -/
theorem redaction_not_idempotent_counterexample :
    redactPayload (redactPayload [("stderr", Json.str sC5)]) ≠
      redactPayload [("stderr", Json.str sC5)] := by
  have hsec : redactSecrets sC5 = sC5 := by
    have h := redactSecrets_space 2100 []
    rw [List.append_nil] at h
    rw [show redactSecrets ([] : List Char) = [] from rfl] at h
    rw [List.append_nil] at h
    rw [sC5]
    exact h
  have ht1 := truncateOutput_space 2048 0 (List.replicate 52 ' ')
    (by rw [utf8Len_replicate_space]; omega)
  rw [show (2048:Nat) + 0 = 2048 from rfl] at ht1
  have honce : truncateOutput (redactSecrets sC5) 2048 =
      List.replicate 2048 ' ' ++ truncationMarker 52 := by
    rw [hsec]
    rw [show sC5 = List.replicate 2048 ' ' ++ List.replicate 52 ' ' from by
      rw [sC5, ← List.replicate_add]]
    rw [ht1]
    rw [show takeBytes 0 (List.replicate 52 ' ') = [] from by decide]
    rw [utf8Len_replicate_space, List.nil_append, Nat.sub_zero]
  have hsec2 : redactSecrets (List.replicate 2048 ' ' ++ truncationMarker 52) =
      List.replicate 2048 ' ' ++ truncationMarker 52 := by
    rw [redactSecrets_space]
    rw [show redactSecrets (truncationMarker 52) = truncationMarker 52 from by decide]
  have ht2 := truncateOutput_space 2048 0 (truncationMarker 52) (by decide)
  rw [show (2048:Nat) + 0 = 2048 from rfl] at ht2
  have htwice : truncateOutput (redactSecrets (List.replicate 2048 ' ' ++
      truncationMarker 52)) 2048 =
      List.replicate 2048 ' ' ++ truncationMarker 25 := by
    rw [hsec2, ht2]
    rw [show takeBytes 0 (truncationMarker 52) = [] from by decide]
    rw [show utf8Len (truncationMarker 52) - 0 = 25 from by decide, List.nil_append]
  rw [redactPayload_stderr, honce, redactPayload_stderr, htwice]
  intro h
  simp only [List.cons.injEq, Prod.mk.injEq, Json.str.injEq, and_true, true_and] at h
  have h2 := List.append_cancel_left h
  exact absurd h2 (by decide)

mutual
/-- A payload value is in redacted normal form at `path` when every string
leaf is a fixpoint of its per-path transform `redactString` (no
secret-pattern replacement and no truncation would change it). -/
def fixedJson (cfg : RedactionConfig) : Json → List Char → Bool
  | Json.str s, path => redactString cfg path s == s
  | Json.arr xs, path => fixedArr cfg xs path 0
  | Json.obj fs, path => fixedObj cfg fs path
  | Json.num _, _ => true
  | Json.bool _, _ => true
  | Json.null, _ => true

def fixedArr (cfg : RedactionConfig) : List Json → List Char → Nat → Bool
  | [], _, _ => true
  | x :: xs, path, i =>
    fixedJson cfg x (path ++ '[' :: (toString i).toList ++ [']']) &&
      fixedArr cfg xs path (i + 1)

def fixedObj (cfg : RedactionConfig) : List (String × Json) → List Char → Bool
  | [], _ => true
  | (k, v) :: fs, path =>
    fixedJson cfg v (path ++ '.' :: k.toList) && fixedObj cfg fs path
end

mutual
theorem fixedJson_fix (cfg : RedactionConfig) :
    ∀ (j : Json) (path : List Char), fixedJson cfg j path = true →
      redactPayloadRecursive cfg j path = j
  | Json.str s, path, h => by
    rw [redactPayloadRecursive]
    rw [show redactString cfg path s = s from by
      have := h
      rw [fixedJson] at this
      exact eq_of_beq this]
  | Json.arr xs, path, h => by
    rw [redactPayloadRecursive]
    rw [fixedArr_fix cfg xs path 0 (by rw [fixedJson] at h; exact h)]
  | Json.obj fs, path, h => by
    rw [redactPayloadRecursive]
    rw [fixedObj_fix cfg fs path (by rw [fixedJson] at h; exact h)]
  | Json.num _, _, _ => by rw [redactPayloadRecursive]
  | Json.bool _, _, _ => by rw [redactPayloadRecursive]
  | Json.null, _, _ => by rw [redactPayloadRecursive]

theorem fixedArr_fix (cfg : RedactionConfig) :
    ∀ (xs : List Json) (path : List Char) (i : Nat),
      fixedArr cfg xs path i = true → redactArr cfg xs path i = xs
  | [], _, _, _ => by rw [redactArr]
  | x :: xs, path, i, h => by
    rw [fixedArr, Bool.and_eq_true] at h
    rw [redactArr]
    rw [fixedJson_fix cfg x _ h.1, fixedArr_fix cfg xs path (i + 1) h.2]

theorem fixedObj_fix (cfg : RedactionConfig) :
    ∀ (fs : List (String × Json)) (path : List Char),
      fixedObj cfg fs path = true → redactObj cfg fs path = fs
  | [], _, _ => by rw [redactObj]
  | (k, v) :: fs, path, h => by
    rw [fixedObj, Bool.and_eq_true] at h
    rw [redactObj]
    rw [fixedJson_fix cfg v _ h.1, fixedObj_fix cfg fs path h.2]
end

/-- Claim C5 (amended): redaction is a no-op — hence idempotent — exactly
on payloads in redacted normal form (every string leaf a fixpoint of its
per-path transform); a first pass does not generally produce such a form,
because the truncation marker pushes a truncated field back over its byte
budget and a second pass truncates it again (see the counterexample). -/
theorem redaction_idempotent_on_fixpoints (p : List (String × Json))
    (h : fixedObj DEFAULT_CONFIG p "root".toList = true) :
    redactPayload p = p ∧
    redactPayload (redactPayload p) = redactPayload p := by
  have h1 : redactPayload p = p := by
    rw [redactPayload, redactPayloadRecursive,
      fixedObj_fix DEFAULT_CONFIG p _ h]
  exact ⟨h1, by rw [h1]; exact h1⟩

/-- The C5 witness payload: a short stdout string and a note whose value
already carries the redaction marker from an earlier pass. -/
def pC5w : List (String × Json) :=
  [("stdout", Json.str "hello".toList),
   ("note", Json.str "API_KEY=***REDACTED***".toList)]

/-- Claim C5 witness: a payload in redacted normal form — including one
field that is literally a first-pass output `API_KEY=***REDACTED***` — is
untouched by redaction, and a second pass is a no-op. -/
theorem redaction_idempotent_on_fixpoints_witness :
    redactPayload pC5w = pC5w ∧
    redactPayload (redactPayload pC5w) = redactPayload pC5w :=
  redaction_idempotent_on_fixpoints pC5w (by
    rw [pC5w, fixedObj, fixedJson, fixedObj, fixedJson, fixedObj]
    decide)
